import Mathlib

/-!
Verification of the Jacket Load Distribution app (src/app.py).

The app reads four leg pressures, computes each leg's percentage share of
the total, compares it to a per-jacket, per-case minimum target table, and
appends readings to a CSV register.  Pressures and targets are modelled as
exact rationals; the CSV register is modelled as an optional file value
(none = file absent on disk).
-/

namespace JacketLoad

/-- The four legs A, B, C, D of a jacket. -/
inductive Leg where
  | A
  | B
  | C
  | D
deriving DecidableEq, Repr

/-- Iteration order of the pressures dict built at line 112 of app.py. -/
def legs : List Leg := [Leg.A, Leg.B, Leg.C, Leg.D]

/-- LEG_LABELS, lines 28-33 of app.py. -/
def LEG_LABELS : Leg → String
  | Leg.A => "BP (A)"
  | Leg.B => "BQ (B)"
  | Leg.C => "AQ (C)"
  | Leg.D => "AP (D)"

/-- G05 EAC targets, line 21 of app.py. -/
def G05_EAC : Leg → ℚ
  | Leg.A => 11.6
  | Leg.B => 11.4
  | Leg.C => 22.9
  | Leg.D => 12.3

/-- G05 OBS targets, line 21 of app.py. -/
def G05_OBS : Leg → ℚ
  | Leg.A => 17.3
  | Leg.B => 20.1
  | Leg.C => 22.9
  | Leg.D => 17.0

/-- H05 EAC targets, line 22 of app.py. -/
def H05_EAC : Leg → ℚ
  | Leg.A => 11.6
  | Leg.B => 11.4
  | Leg.C => 22.9
  | Leg.D => 12.3

/-- H05 OBS targets, line 22 of app.py. -/
def H05_OBS : Leg → ℚ
  | Leg.A => 17.3
  | Leg.B => 20.1
  | Leg.C => 22.9
  | Leg.D => 17.0

/-- J05 EAC targets, line 23 of app.py. -/
def J05_EAC : Leg → ℚ
  | Leg.A => 11.6
  | Leg.B => 11.4
  | Leg.C => 22.9
  | Leg.D => 12.3

/-- J05 OBS targets, line 23 of app.py. -/
def J05_OBS : Leg → ℚ
  | Leg.A => 17.4
  | Leg.B => 20.1
  | Leg.C => 22.9
  | Leg.D => 16.9

/-- D07 (Radar) EAC targets, line 24 of app.py. -/
def D07_EAC : Leg → ℚ
  | Leg.A => 11.8
  | Leg.B => 11.6
  | Leg.C => 22.6
  | Leg.D => 12.1

/-- D07 (Radar) OBS targets, line 24 of app.py. -/
def D07_OBS : Leg → ℚ
  | Leg.A => 17.6
  | Leg.B => 20.4
  | Leg.C => 22.6
  | Leg.D => 16.6

/-- The keys of the JACKETS dict, lines 20-26 of app.py, in insertion
order; this is the list offered by the jacket selectbox at line 94. -/
def jacketKeys : List String := ["G05", "H05", "J05", "D07 (Radar)"]

/-- Outer lookup of the JACKETS dict of lines 20-26: a jacket id maps to
its pair of (EAC, OBS) target tables; a key not in the dict raises
KeyError in Python, modelled as none. -/
def jacket_tables (j : String) : Option ((Leg → ℚ) × (Leg → ℚ)) :=
  if j = "G05" then some (G05_EAC, G05_OBS)
  else if j = "H05" then some (H05_EAC, H05_OBS)
  else if j = "J05" then some (J05_EAC, J05_OBS)
  else if j = "D07 (Radar)" then some (D07_EAC, D07_OBS)
  else none

/-- The double dict lookup JACKETS[jacket_id][case] at line 97 of app.py.
A missing jacket id or a case other than EAC / OBS raises KeyError in
Python (the NotFoundError of the spec), modelled as none.  The Python
code never substitutes a default: dict indexing either returns the stored
table or raises. -/
def getTargets (j c : String) : Option (Leg → ℚ) :=
  match jacket_tables j with
  | none => none
  | some t =>
      if c = "EAC" then some t.1
      else if c = "OBS" then some t.2
      else none

/-- total_pressure = sum(pressures.values()), line 113 of app.py. -/
def totalPressure (p : Leg → ℚ) : ℚ :=
  (legs.map p).sum

/-- The percentages dict, lines 118-121 of app.py: if total_pressure > 0
each leg gets (v / total_pressure) * 100, otherwise every leg gets 0. -/
def percentages (p : Leg → ℚ) : Leg → ℚ :=
  if 0 < totalPressure p then
    fun k => (p k / totalPressure p) * 100
  else
    fun _ => 0

/-- Abstract errors named by the spec.  The computation at lines 112-121
of app.py contains no raise statement and no validation of its input
mapping, so in this error-aware embedding it always returns ok. -/
inductive AppError where
  | ValidationError
  | NotFoundError
deriving DecidableEq, Repr

/-- The distribution computation of lines 112-121 of app.py, wrapped in
Except to make the presence or absence of a signalled error expressible.
The source raises nothing for any input mapping, so the result is always
ok of the percentages. -/
def computeDistribution (p : Leg → ℚ) : Except AppError (Leg → ℚ) :=
  Except.ok (percentages p)

/-- The failed list, lines 180-183 of app.py: the labels of the legs
whose percentage is strictly below the minimum target, in leg order. -/
def failed (pct min_targets : Leg → ℚ) : List String :=
  (legs.filter (fun k => pct k < min_targets k)).map LEG_LABELS

/-- The color picked by leg_box at line 67 of app.py: green when
value >= minimum, red otherwise. -/
def leg_box_color (value minimum : ℚ) : String :=
  if minimum ≤ value then "#2ecc71" else "#e74c3c"

/-- st.number_input with min_value (lines 106-110 of app.py): the widget
never yields a value below min_value (its default is min_value and
entries below it are rejected), modelled as clamping from below. -/
def number_input (min_value v : ℚ) : ℚ :=
  max min_value v

/-- The pressures dict built at line 112 of app.py from the four widget
values: all four legs are always present by construction. -/
def mkPressures (a b c d : ℚ) : Leg → ℚ
  | Leg.A => number_input 0 a
  | Leg.B => number_input 0 b
  | Leg.C => number_input 0 c
  | Leg.D => number_input 0 d

/-- One row of the pressure register, the new_row dict of lines 41-49 of
app.py: jacket id, case, timestamp and the four pressures. -/
structure Reading where
  jacketId : String
  Case : String
  dateTime : String
  bpA : ℚ
  bqB : ℚ
  aqC : ℚ
  apD : ℚ
deriving DecidableEq, Repr

/-- The header row written on first save, in the key order of the
new_row dict of lines 41-49 of app.py. -/
def header : List String :=
  ["Jacket ID", "Case", "DateTime", "BP (A)", "BQ (B)", "AQ (C)", "AP (D)"]

/-- The CSV register file: its column order and its data rows. -/
structure CsvFile where
  columns : List String
  rows : List Reading
deriving DecidableEq, Repr

/-- The new_row dict of lines 41-49 of app.py, with the timestamp passed
in explicitly (datetime.now() is an effect of the environment). -/
def mk_new_row (jacket_id Case now : String) (pressures : Leg → ℚ) : Reading :=
  { jacketId := jacket_id
    Case := Case
    dateTime := now
    bpA := pressures Leg.A
    bqB := pressures Leg.B
    aqC := pressures Leg.C
    apD := pressures Leg.D }

/-- save_pressures, lines 38-57 of app.py, over the register state
(none = file absent).  If the file exists, pd.read_csv recovers its rows,
pd.concat appends the new row after them keeping the existing column
order (the appended frame has the same columns, since the register is
only ever written by this function), and to_csv rewrites the file; if it
does not exist, a fresh one-row frame is written, whose columns are the
new_row keys, i.e. the header. -/
def save_pressures (jacket_id Case now : String) (pressures : Leg → ℚ)
    (store : Option CsvFile) : Option CsvFile :=
  match store with
  | some df => some { columns := df.columns, rows := df.rows ++ [mk_new_row jacket_id Case now pressures] }
  | none => some { columns := header, rows := [mk_new_row jacket_id Case now pressures] }

/-- load_register, lines 60-63 of app.py: the file's rows if it exists,
an empty frame otherwise. -/
def load_register (store : Option CsvFile) : List Reading :=
  match store with
  | some df => df.rows
  | none => []

/-- The four leg labels are pairwise distinct. -/
lemma LEG_LABELS_injective : Function.Injective LEG_LABELS := by
  intro a b h
  cases a <;> cases b <;> first
    | rfl
    | exact absurd h (by decide)

/-- Membership in the failed list of lines 180-183 of app.py is exactly
the strict comparison of the leg's value against its minimum target. -/
lemma mem_failed_iff (pct tgt : Leg → ℚ) (k : Leg) :
    LEG_LABELS k ∈ failed pct tgt ↔ pct k < tgt k := by
  unfold failed
  rw [List.mem_map_of_injective LEG_LABELS_injective, List.mem_filter]
  constructor
  · intro h
    exact of_decide_eq_true h.2
  · intro h
    exact ⟨by cases k <;> simp [legs], decide_eq_true h⟩

/-- Each leg's pressure is at most the total when all pressures are
non-negative. -/
lemma leg_le_total (p : Leg → ℚ) (hnn : ∀ k, 0 ≤ p k) (k : Leg) :
    p k ≤ totalPressure p := by
  have hA := hnn Leg.A
  have hB := hnn Leg.B
  have hC := hnn Leg.C
  have hD := hnn Leg.D
  cases k <;> simp [totalPressure, legs] <;> linarith

/-- C1: for every pressures mapping over the four legs with non-negative
values and positive total, the computed percentages sum to 100 within
tolerance 1e-6 (in exact rational arithmetic the sum is exactly 100). -/
theorem percentages_sum_within_tolerance (p : Leg → ℚ)
    (_hnn : ∀ k, 0 ≤ p k) (hpos : 0 < totalPressure p) :
    |(legs.map (percentages p)).sum - 100| ≤ 1 / 1000000 := by
  have hne : totalPressure p ≠ 0 := ne_of_gt hpos
  have hsum : (legs.map (percentages p)).sum = 100 := by
    simp only [percentages, if_pos hpos, legs, List.map, List.sum_cons,
      List.sum_nil, add_zero]
    have ht : totalPressure p = p Leg.A + (p Leg.B + (p Leg.C + p Leg.D)) := by
      simp [totalPressure, legs]
    field_simp
    rw [ht]
    ring
  rw [hsum]
  norm_num

/-- C1 witness: at pressures all equal to 1 the hypotheses hold and the
percentage sum is within tolerance of 100. -/
theorem percentages_sum_within_tolerance_witness :
    |(legs.map (percentages (fun _ => 1))).sum - 100| ≤ 1 / 1000000 :=
  percentages_sum_within_tolerance (fun _ => 1) (fun _ => by norm_num)
    (by norm_num [totalPressure, legs])

/-- C2: a leg is flagged in the failed list exactly when its percentage
is strictly below its minimum target; in particular a leg whose
percentage equals the target is not flagged. -/
theorem failed_iff_strictly_below (p tgt : Leg → ℚ) (k : Leg) :
    LEG_LABELS k ∈ failed (percentages p) tgt ↔ percentages p k < tgt k :=
  mem_failed_iff (percentages p) tgt k

/-- A concrete invalid pressures mapping: leg A is negative. -/
def pNeg : Leg → ℚ
  | Leg.A => -1
  | _ => 1

/-- C3 counterexample: on a mapping with a negative pressure the
computation of lines 112-121 of app.py does not fail with any error; it
is carried out on the invalid data and produces the percentage -50 for
leg A. -/
theorem computeDistribution_no_validation_error :
    pNeg Leg.A < 0 ∧
    computeDistribution pNeg = Except.ok (percentages pNeg) ∧
    percentages pNeg Leg.A = -50 := by
  refine ⟨by norm_num [pNeg], rfl, ?_⟩
  have ht : totalPressure pNeg = 2 := by
    simp [totalPressure, legs, pNeg]
    norm_num
  have hpos : 0 < totalPressure pNeg := by rw [ht]; norm_num
  simp [percentages, if_pos hpos, ht, pNeg]
  norm_num

/-- C3 amended: the computation performs no validation and never signals
an error; instead, invalid data is prevented at the input boundary: each
number input enforces a minimum of 0 and the pressures dict is built
with all four legs present, so the computation only ever receives
complete non-negative mappings. -/
theorem input_boundary_prevents_invalid (a b c d : ℚ) :
    (∀ k, 0 ≤ mkPressures a b c d k) ∧
    computeDistribution (mkPressures a b c d) =
      Except.ok (percentages (mkPressures a b c d)) := by
  refine ⟨?_, rfl⟩
  intro k
  cases k <;> exact le_max_left 0 _

/-- C4: saving a reading then loading the register yields a sequence
whose last element is exactly the saved row (field for field) and whose
length is one more than the register held before the save. -/
theorem save_then_load_roundtrip (jacket_id Case now : String)
    (pressures : Leg → ℚ) (store : Option CsvFile) :
    (load_register (save_pressures jacket_id Case now pressures store)).getLast?
        = some (mk_new_row jacket_id Case now pressures) ∧
    (load_register (save_pressures jacket_id Case now pressures store)).length
        = (load_register store).length + 1 := by
  cases store <;> simp [save_pressures, load_register]

/-- C5: with all four pressures zero the computation signals no error,
every percentage is 0, and the failed list flags exactly the legs whose
minimum target is positive. -/
theorem all_zero_pressures_result (tgt : Leg → ℚ) :
    computeDistribution (fun _ => 0) = Except.ok (percentages (fun _ => 0)) ∧
    (∀ k, percentages (fun _ => (0 : ℚ)) k = 0) ∧
    (∀ k, LEG_LABELS k ∈ failed (percentages (fun _ => 0)) tgt ↔ 0 < tgt k) := by
  have hz : ∀ k, percentages (fun _ => (0 : ℚ)) k = 0 := by
    intro k
    simp [percentages, totalPressure, legs]
  refine ⟨rfl, hz, ?_⟩
  intro k
  rw [mem_failed_iff, hz k]

/-- C6: looking up targets for a jacket id absent from the JACKETS table
or for a case other than EAC / OBS fails (KeyError in the source, the
NotFoundError of the spec) and never yields a fallback target set. -/
theorem getTargets_unknown_fails (j c : String)
    (h : j ∉ jacketKeys ∨ (c ≠ "EAC" ∧ c ≠ "OBS")) :
    getTargets j c = none := by
  rcases h with hj | ⟨h1, h2⟩
  · simp only [jacketKeys, List.mem_cons, List.not_mem_nil, or_false,
      not_or] at hj
    obtain ⟨n1, n2, n3, n4⟩ := hj
    simp [getTargets, jacket_tables, n1, n2, n3, n4]
  · unfold getTargets
    cases jacket_tables j with
    | none => rfl
    | some t => simp [h1, h2]

/-- C6 witness: the unknown jacket id Z99 with case EAC fails the
lookup. -/
theorem getTargets_unknown_fails_witness :
    getTargets "Z99" "EAC" = none :=
  getTargets_unknown_fails "Z99" "EAC" (Or.inl (by decide))

/-- C7: saving onto an existing register keeps all previously stored
rows, in place and in order, and the original column order, adding the
new reading as one row at the end; saving with no register present
succeeds and initializes the register with the header columns and the
single new row. -/
theorem save_pressures_preserves_rows_and_columns
    (jacket_id Case now : String) (pressures : Leg → ℚ) :
    (∀ df : CsvFile,
        save_pressures jacket_id Case now pressures (some df) =
          some { columns := df.columns,
                 rows := df.rows ++ [mk_new_row jacket_id Case now pressures] }) ∧
    save_pressures jacket_id Case now pressures none =
      some { columns := header,
             rows := [mk_new_row jacket_id Case now pressures] } :=
  ⟨fun _ => rfl, rfl⟩

/-- C8: loading the register when no storage exists returns the empty
sequence rather than an error. -/
theorem load_register_no_storage_empty : load_register none = [] := rfl

/-- C9: the leg box is colored green exactly when the leg is not in the
failed list: the display color and the warning can never disagree about
a leg. -/
theorem leg_color_matches_failed (p tgt : Leg → ℚ) (k : Leg) :
    leg_box_color (percentages p k) (tgt k) = "#2ecc71" ↔
      LEG_LABELS k ∉ failed (percentages p) tgt := by
  rw [mem_failed_iff]
  unfold leg_box_color
  by_cases h : tgt k ≤ percentages p k
  · simp [h, not_lt.mpr h]
  · have hlt : percentages p k < tgt k := not_le.mp h
    rw [if_neg h]
    simp only [not_lt]
    constructor
    · intro he
      exact absurd he (by decide)
    · intro hle
      exact absurd (lt_of_lt_of_le hlt hle) (lt_irrefl _)

/-- C10: for every pressures mapping with non-negative values, every
computed percentage lies in the closed interval from 0 to 100. -/
theorem percentages_in_range (p : Leg → ℚ) (hnn : ∀ k, 0 ≤ p k) (k : Leg) :
    0 ≤ percentages p k ∧ percentages p k ≤ 100 := by
  unfold percentages
  by_cases hpos : 0 < totalPressure p
  · rw [if_pos hpos]
    constructor
    · have : 0 ≤ p k / totalPressure p :=
        div_nonneg (hnn k) (le_of_lt hpos)
      linarith
    · have hle : p k / totalPressure p ≤ 1 :=
        (div_le_one hpos).mpr (leg_le_total p hnn k)
      linarith
  · rw [if_neg hpos]
    norm_num

/-- C10 witness: at pressures all equal to 1 the hypothesis holds and
the percentage of leg A lies between 0 and 100. -/
theorem percentages_in_range_witness :
    0 ≤ percentages (fun _ => 1) Leg.A ∧ percentages (fun _ => 1) Leg.A ≤ 100 :=
  percentages_in_range (fun _ => 1) (fun _ => by norm_num) Leg.A

end JacketLoad
